import Mathlib

/-!
Shallow embedding of the wsstat package (src/wsstat.go), a WebSocket latency
measurement library built around gorilla/websocket.

Durations are modelled as integers (Go `time.Duration` is a signed 64-bit
nanosecond count; none of the modelled arithmetic can overflow at realistic
inputs, so plain `Int` is used).  All interaction with the network is supplied
through environment records: each `Bool`/`Option` field of an environment says
whether the corresponding external step succeeds and how long it takes.  The
definitions mirror the Go functions statement by statement; descriptive-only
metadata that no claim touches (the `URL` field, request/response header
capture, `TLSState`) is elided from the `Result` record.
-/

set_option autoImplicit false

namespace Wsstat

/-- Errors produced by the operations of the package.  `dnsErr`, `tcpErr`,
`tlsErr` and `upgradeErr` are the errors returned unmodified out of the
dialer callbacks and the upgrade (wsstat.go lines 503-575 and 121-124);
`lookupIPErr` models the wrapped "failed to lookup IP" error of line 133;
`closeWriteErr` is a failure of the close-frame write (line 100) and
`closeErr` a failure of the final transport close (line 104). -/
inductive WSError
  | dnsErr
  | tcpErr
  | tlsErr
  | upgradeErr
  | lookupIPErr
  | writeErr
  | readErr
  | pongTimeout
  | closeWriteErr
  | closeErr
  deriving DecidableEq, Repr

/-- The timing record of wsstat.go lines 51-75: per-phase durations and
cumulative markers, plus the resolved IP list.  Go zero-initialises every
field, which the default values reproduce. -/
structure Result where
  IPs : List String := []
  DNSLookup : Int := 0
  TCPConnection : Int := 0
  TLSHandshake : Int := 0
  WSHandshake : Int := 0
  MessageRoundTrip : Int := 0
  ConnectionClose : Int := 0
  DNSLookupDone : Int := 0
  TCPConnected : Int := 0
  TLSHandshakeDone : Int := 0
  WSHandshakeDone : Int := 0
  FirstMessageResponse : Int := 0
  TotalTime : Int := 0
  deriving DecidableEq, Repr

/-- The zero value of `Result`, as produced by `&Result{}` in `NewWSStat`. -/
def Result.zero : Result := {}

/-- The session object (wsstat.go lines 78-82).  `connSet` records whether a
connection has been stored on the session (`ws.conn = conn`, line 126). -/
structure WSStat where
  connSet : Bool := false
  result : Result := {}
  deriving DecidableEq, Repr

/-- `NewWSStat` (lines 578-587): a fresh session with a zero `Result`. -/
def NewWSStat : WSStat := {}

/-- The package-level mutable configuration relevant to the claims: the dial
timeout variable of line 30. -/
structure PkgConfig where
  dialTimeout : Int
  deriving DecidableEq, Repr

/-- Default configuration: `dialTimeout = 3 * time.Second` (line 30),
in nanoseconds. -/
def defaultConfig : PkgConfig := { dialTimeout := 3000000000 }

/-- `SetDialTimeout` (lines 596-598): overwrites the package dial timeout. -/
def SetDialTimeout (timeout : Int) (cfg : PkgConfig) : PkgConfig :=
  { cfg with dialTimeout := timeout }

/-- A record of the one TCP connect the dialer performs: the address dialed
and the timeout bound passed to the dial (none = no bound supplied). -/
structure DialAttempt where
  addr : String
  timeout : Option Int
  deriving DecidableEq, Repr

/-- Environment for one dial: scheme, resolver behaviour, and success and
duration of each network step.  `lookupHost` gives the first resolved
address and the remaining addresses (`none` = resolution error; Go's
`LookupHost` errors rather than returning an empty list).  `lookupIP` is the
post-upgrade `net.LookupIP` of line 131. -/
structure NetDialEnv where
  sec : Bool
  lookupHost : Option (String × List String)
  dnsDur : Int
  tcpOK : Bool
  tcpDur : Int
  tlsOK : Bool
  tlsDur : Int
  upgradeOK : Bool
  upgradeDur : Int
  lookupIP : Option (List String)
  deriving DecidableEq, Repr

/-- `NetDialContext` of `newDialer` (lines 503-526): DNS lookup, then a TCP
connect to the first resolved address bounded by the configured dial timeout.
`DNSLookup` is recorded right after resolution; `TCPConnection` and the
cumulative markers `DNSLookupDone`, `TCPConnected` are recorded only after the
connect succeeds (lines 519-523). -/
def netDialContext (cfg : PkgConfig) (env : NetDialEnv) (r : Result) :
    Result × Option DialAttempt × Option WSError :=
  match env.lookupHost with
  | none => (r, none, some .dnsErr)
  | some (a, _) =>
    let r := { r with DNSLookup := env.dnsDur }
    let att : DialAttempt := { addr := a, timeout := some cfg.dialTimeout }
    if env.tcpOK then
      let r := { r with TCPConnection := env.tcpDur }
      let r := { r with DNSLookupDone := r.DNSLookup }
      let r := { r with TCPConnected := r.DNSLookupDone + r.TCPConnection }
      (r, some att, none)
    else
      (r, some att, some .tcpErr)

/-- `NetDialTLSContext` of `newDialer` (lines 528-573): DNS lookup, a TCP
connect to the first resolved address via a fresh `net.Dialer` with no
timeout set (lines 540-541 pass no timeout, hence `timeout := none` in the
attempt), then the TLS handshake.  `DNSLookup` and `TCPConnection` are
recorded after their own steps; the cumulative markers `DNSLookupDone`,
`TCPConnected`, `TLSHandshakeDone` are recorded only after the TLS handshake
succeeds (lines 567-570). -/
def netDialTLSContext (cfg : PkgConfig) (env : NetDialEnv) (r : Result) :
    Result × Option DialAttempt × Option WSError :=
  match env.lookupHost with
  | none => (r, none, some .dnsErr)
  | some (a, _) =>
    let r := { r with DNSLookup := env.dnsDur }
    let att : DialAttempt := { addr := a, timeout := none }
    if env.tcpOK then
      let r := { r with TCPConnection := env.tcpDur }
      if env.tlsOK then
        let r := { r with TLSHandshake := env.tlsDur }
        let r := { r with DNSLookupDone := r.DNSLookup }
        let r := { r with TCPConnected := r.DNSLookupDone + r.TCPConnection }
        let r := { r with TLSHandshakeDone := r.TCPConnected + r.TLSHandshake }
        (r, some att, none)
      else
        (r, some att, some .tlsErr)
    else
      (r, some att, some .tcpErr)

/-- Model of `gorilla/websocket` `Dialer.Dial` for the dialer built by
`newDialer`: runs the scheme-appropriate net-dial callback, then the HTTP
upgrade.  Returns the updated record, the transport dial attempt (if one was
reached) and the first error. -/
def dialerDial (cfg : PkgConfig) (env : NetDialEnv) (r : Result) :
    Result × Option DialAttempt × Option WSError :=
  match (if env.sec then netDialTLSContext cfg env r else netDialContext cfg env r) with
  | (r, att, some e) => (r, att, some e)
  | (r, att, none) =>
    if env.upgradeOK then (r, att, none) else (r, att, some .upgradeErr)

/-- Wall-clock duration of a successful dial, as observed by `time.Since`
on line 125: the durations of the steps the dial performed. -/
def dialElapsed (env : NetDialEnv) : Int :=
  env.dnsDur + env.tcpDur + (if env.sec then env.tlsDur else 0) + env.upgradeDur

/-- `WSStat.Dial` (lines 113-157).  On dialer error, returns the error with
the session unchanged apart from the callbacks' writes.  On upgrade success it
stores the connection, sets `WSHandshake := totalDialDuration -
TLSHandshakeDone` and `WSHandshakeDone := totalDialDuration` (lines 125-128),
then performs the IP lookup of line 131, whose failure is returned as a
wrapped error after those fields were already written. -/
def WSStat.Dial (cfg : PkgConfig) (env : NetDialEnv) (ws : WSStat) :
    WSStat × Option DialAttempt × Option WSError :=
  match dialerDial cfg env ws.result with
  | (r, att, some e) => ({ ws with result := r }, att, some e)
  | (r, att, none) =>
    let totalDialDuration := dialElapsed env
    let r := { r with WSHandshake := totalDialDuration - r.TLSHandshakeDone }
    let r := { r with WSHandshakeDone := totalDialDuration }
    match env.lookupIP with
    | none => ({ connSet := true, result := r }, att, some .lookupIPErr)
    | some ips => ({ connSet := true, result := { r with IPs := ips } }, att, none)

/-- `WSStat.WriteMessage` (lines 177-184): captures `start := time.Now()`
before the write; on write error returns the zero `time.Time` (modelled as 0)
with the error; on success returns `start`.  The `Result` is never touched. -/
def WSStat.WriteMessage (now : Int) (writeOK : Bool) (ws : WSStat) :
    WSStat × Int × Option WSError :=
  if writeOK then (ws, now, none) else (ws, 0, some .writeErr)

/-- `WSStat.ReadMessage` (lines 163-172): on read success, records
`MessageRoundTrip := time.Since(writeStart)` (with `readDone` the time the
read completes) and `FirstMessageResponse := WSHandshakeDone +
MessageRoundTrip`; on error returns without touching the record. -/
def WSStat.ReadMessage (readOK : Bool) (readDone : Int) (writeStart : Int) (ws : WSStat) :
    WSStat × Option WSError :=
  if readOK then
    let r := { ws.result with MessageRoundTrip := readDone - writeStart }
    let r := { r with FirstMessageResponse := r.WSHandshakeDone + r.MessageRoundTrip }
    ({ ws with result := r }, none)
  else (ws, some .readErr)

/-- Environment for one message exchange: success of the write and the read,
the write-start instant, and the wall time from write start to read
completion. -/
structure MsgEnv where
  writeOK : Bool
  readOK : Bool
  writeStart : Int
  roundTripDur : Int
  deriving DecidableEq, Repr

/-- `WSStat.SendMessage` (lines 189-204): write, then a deadline-bounded
read; on success records `MessageRoundTrip` and `FirstMessageResponse :=
WSHandshakeDone + MessageRoundTrip`; an error at either step returns with the
record untouched. -/
def WSStat.SendMessage (env : MsgEnv) (ws : WSStat) : WSStat × Option WSError :=
  if env.writeOK then
    if env.readOK then
      let r := { ws.result with MessageRoundTrip := env.roundTripDur }
      let r := { r with FirstMessageResponse := r.WSHandshakeDone + r.MessageRoundTrip }
      ({ ws with result := r }, none)
    else (ws, some .readErr)
  else (ws, some .writeErr)

/-- `WSStat.SendMessageJSON` (lines 220-236): identical timing behaviour to
`SendMessage` with JSON encode/decode around the write and read. -/
def WSStat.SendMessageJSON (env : MsgEnv) (ws : WSStat) : WSStat × Option WSError :=
  if env.writeOK then
    if env.readOK then
      let r := { ws.result with MessageRoundTrip := env.roundTripDur }
      let r := { r with FirstMessageResponse := r.WSHandshakeDone + r.MessageRoundTrip }
      ({ ws with result := r }, none)
    else (ws, some .readErr)
  else (ws, some .writeErr)

/-- The ping-wait timeout of line 243: `5 * time.Second`, in nanoseconds. -/
def pongWaitTimeout : Int := 5000000000

/-- Environment for one ping attempt: success of the ping write, and the
arrival time of the pong relative to the write (`none` = no pong ever). -/
structure PingEnv where
  pingWriteOK : Bool
  pong : Option Int
  deriving DecidableEq, Repr

/-- `WSStat.SendPing` (lines 241-266): writes a ping, then races the pong
signal against the 5 s timeout.  A pong arriving within the timeout records
`MessageRoundTrip` and then `FirstMessageResponse := WSHandshakeDone +
MessageRoundTrip`; a timeout returns the "pong response timeout" error before
either field is written. -/
def WSStat.SendPing (env : PingEnv) (ws : WSStat) : WSStat × Option WSError :=
  if env.pingWriteOK then
    match env.pong with
    | some d =>
      if d < pongWaitTimeout then
        let r := { ws.result with MessageRoundTrip := d }
        let r := { r with FirstMessageResponse := r.WSHandshakeDone + r.MessageRoundTrip }
        ({ ws with result := r }, none)
      else (ws, some .pongTimeout)
    | none => (ws, some .pongTimeout)
  else (ws, some .writeErr)

/-- Environment for one close: success of the close-frame write, the wall
time from the start of `CloseConn` to the point after the transport close,
and whether the transport close itself errors. -/
structure CloseEnv where
  closeWriteOK : Bool
  closeDur : Int
  closeFails : Bool
  deriving DecidableEq, Repr

/-- `WSStat.CloseConn` (lines 98-108): writes the close frame; on write error
returns immediately with the record untouched (lines 101-103).  Otherwise it
closes the transport and, whether or not that close errors, records
`ConnectionClose := time.Since(start)` and `TotalTime :=
FirstMessageResponse + ConnectionClose` (lines 104-107), returning the close
error if any. -/
def WSStat.CloseConn (env : CloseEnv) (ws : WSStat) : WSStat × Option WSError :=
  if env.closeWriteOK then
    let r := { ws.result with ConnectionClose := env.closeDur }
    let r := { r with TotalTime := r.FirstMessageResponse + r.ConnectionClose }
    ({ ws with result := r }, if env.closeFails then some .closeErr else none)
  else (ws, some .closeWriteErr)

/-- Environment for a canned text or JSON flow. -/
structure FlowEnv where
  dial : NetDialEnv
  msg : MsgEnv
  close : CloseEnv
  deriving DecidableEq, Repr

/-- Environment for the canned ping flow. -/
structure FlowEnvPing where
  dial : NetDialEnv
  ping : PingEnv
  close : CloseEnv
  deriving DecidableEq, Repr

/-- `MeasureLatency` (lines 423-441): dial, `WriteMessage`, `ReadMessage`,
then `CloseConn` with its error discarded (line 439).  Any dial, write or
read failure returns `Result{}` with only the error. -/
def MeasureLatency (cfg : PkgConfig) (env : FlowEnv) : Result × Option WSError :=
  match WSStat.Dial cfg env.dial NewWSStat with
  | (_, _, some e) => (Result.zero, some e)
  | (ws, _, none) =>
    match WSStat.WriteMessage env.msg.writeStart env.msg.writeOK ws with
    | (_, _, some e) => (Result.zero, some e)
    | (ws, start, none) =>
      match WSStat.ReadMessage env.msg.readOK (start + env.msg.roundTripDur) start ws with
      | (_, some e) => (Result.zero, some e)
      | (ws, none) => ((WSStat.CloseConn env.close ws).1.result, none)

/-- `MeasureLatencyJSON` (lines 446-459): dial, `SendMessageJSON`, then
`CloseConn` with its error discarded (line 457). -/
def MeasureLatencyJSON (cfg : PkgConfig) (env : FlowEnv) : Result × Option WSError :=
  match WSStat.Dial cfg env.dial NewWSStat with
  | (_, _, some e) => (Result.zero, some e)
  | (ws, _, none) =>
    match WSStat.SendMessageJSON env.msg ws with
    | (_, some e) => (Result.zero, some e)
    | (ws, none) => ((WSStat.CloseConn env.close ws).1.result, none)

/-- `MeasureLatencyPing` (lines 464-477): dial, `SendPing`, then `CloseConn`
with its error discarded (line 475). -/
def MeasureLatencyPing (cfg : PkgConfig) (env : FlowEnvPing) : Result × Option WSError :=
  match WSStat.Dial cfg env.dial NewWSStat with
  | (_, _, some e) => (Result.zero, some e)
  | (ws, _, none) =>
    match WSStat.SendPing env.ping ws with
    | (_, some e) => (Result.zero, some e)
    | (ws, none) => ((WSStat.CloseConn env.close ws).1.result, none)

/-- A dial run from a fresh session, the form every claim uses. -/
def dialOut (cfg : PkgConfig) (env : NetDialEnv) :
    WSStat × Option DialAttempt × Option WSError :=
  WSStat.Dial cfg env NewWSStat

/-- Claim C7: if no pong arrives within the 5 s ping-wait timeout, `SendPing`
returns the pong-timeout error and leaves the session — in particular
`MessageRoundTrip` and `FirstMessageResponse` — completely unchanged; if the
pong arrives in time, `SendPing` returns no error, sets `MessageRoundTrip` to
the pong round-trip time and sets `FirstMessageResponse = WSHandshakeDone +
MessageRoundTrip`. -/
theorem claim_C7 (env : PingEnv) (ws : WSStat) (hw : env.pingWriteOK = true) :
    ((env.pong = none ∨ ∃ d : Int, env.pong = some d ∧ pongWaitTimeout ≤ d) →
      WSStat.SendPing env ws = (ws, some .pongTimeout)) ∧
    (∀ d : Int, env.pong = some d → d < pongWaitTimeout →
      (WSStat.SendPing env ws).2 = none ∧
      (WSStat.SendPing env ws).1.result.MessageRoundTrip = d ∧
      (WSStat.SendPing env ws).1.result.FirstMessageResponse
        = ws.result.WSHandshakeDone + d) := by
  obtain ⟨pw, pong⟩ := env
  simp only at hw
  subst hw
  constructor
  · rintro (h | ⟨d, hd, hle⟩)
    · simp only at h
      subst h
      simp [WSStat.SendPing]
    · simp only at hd
      subst hd
      simp [WSStat.SendPing, not_lt.mpr hle]
  · intro d hd hlt
    simp only at hd
    subst hd
    simp [WSStat.SendPing, hlt]

/-- Witness for C7 at a concrete input: a silent peer (no pong at all) makes
`SendPing` fail with the pong-timeout error, session untouched. -/
theorem claim_C7_witness :
    WSStat.SendPing ⟨true, none⟩ NewWSStat = (NewWSStat, some .pongTimeout) :=
  (claim_C7 ⟨true, none⟩ NewWSStat rfl).1 (Or.inl rfl)

/-- Claim C9: when the dial and upgrade succeed but the post-upgrade hostname
IP lookup fails, `Dial` returns the wrapped lookup error even though the
connection has already been stored on the session and `WSHandshake` and
`WSHandshakeDone` have already been recorded. -/
theorem claim_C9 (cfg : PkgConfig) (env : NetDialEnv)
    (a : String) (rest : List String)
    (hhost : env.lookupHost = some (a, rest))
    (htcp : env.tcpOK = true)
    (htls : env.sec = true → env.tlsOK = true)
    (hupg : env.upgradeOK = true)
    (hip : env.lookupIP = none) :
    (dialOut cfg env).2.2 = some .lookupIPErr ∧
    (dialOut cfg env).1.connSet = true ∧
    (dialOut cfg env).1.result.WSHandshakeDone = dialElapsed env ∧
    (dialOut cfg env).1.result.WSHandshake
      = dialElapsed env - (dialOut cfg env).1.result.TLSHandshakeDone := by
  obtain ⟨sec, lh, dd, tok, td, lok, ld, uok, ud, lip⟩ := env
  simp only at hhost htcp htls hupg hip
  subst hhost htcp hupg hip
  cases sec with
  | false =>
    simp [dialOut, WSStat.Dial, dialerDial, netDialContext, dialElapsed, NewWSStat]
  | true =>
    have hlok : lok = true := htls rfl
    subst hlok
    simp [dialOut, WSStat.Dial, dialerDial, netDialTLSContext, dialElapsed, NewWSStat]

/-- Witness for C9 at a concrete input: a plain dial whose IP lookup fails
still stores the connection and the two protocol-handshake fields. -/
theorem claim_C9_witness :
    (dialOut defaultConfig
      { sec := false, lookupHost := some ("93.184.216.34", []), dnsDur := 1,
        tcpOK := true, tcpDur := 2, tlsOK := false, tlsDur := 0,
        upgradeOK := true, upgradeDur := 3, lookupIP := none }).2.2
      = some .lookupIPErr ∧
    (dialOut defaultConfig
      { sec := false, lookupHost := some ("93.184.216.34", []), dnsDur := 1,
        tcpOK := true, tcpDur := 2, tlsOK := false, tlsDur := 0,
        upgradeOK := true, upgradeDur := 3, lookupIP := none }).1.connSet = true :=
  ⟨(claim_C9 defaultConfig _ "93.184.216.34" [] rfl rfl (fun h => by cases h) rfl rfl).1,
   (claim_C9 defaultConfig _ "93.184.216.34" [] rfl rfl (fun h => by cases h) rfl rfl).2.1⟩

/-- Errors surfaced by `Dial` are dial-phase errors: never a close error. -/
theorem dial_error_not_close (cfg : PkgConfig) (env : NetDialEnv) (ws : WSStat)
    (e : WSError) (h : (WSStat.Dial cfg env ws).2.2 = some e) :
    e ≠ .closeWriteErr ∧ e ≠ .closeErr := by
  obtain ⟨sec, lh, dd, tok, td, lok, ld, uok, ud, lip⟩ := env
  rcases lh with _ | ⟨a, rest⟩ <;> cases sec <;> cases tok <;> cases lok <;>
    cases uok <;> rcases lip with _ | ips <;>
    simp_all [WSStat.Dial, dialerDial, netDialContext, netDialTLSContext] <;>
    (subst h; decide)

/-- Any error surfaced by `MeasureLatency` comes with the zero record and is
never a close error. -/
theorem measureLatency_error_cases (cfg : PkgConfig) (env : FlowEnv) (e : WSError)
    (he : (MeasureLatency cfg env).2 = some e) :
    (MeasureLatency cfg env).1 = Result.zero ∧ e ≠ .closeWriteErr ∧ e ≠ .closeErr := by
  rcases hD : WSStat.Dial cfg env.dial NewWSStat with ⟨ws1, att1, e1⟩
  rcases e1 with _ | e1
  · cases hmw : env.msg.writeOK with
    | false =>
      have hflow : MeasureLatency cfg env = (Result.zero, some .writeErr) := by
        simp [MeasureLatency, hD, WSStat.WriteMessage, hmw]
      rw [hflow] at he
      simp only [Option.some.injEq] at he
      subst he
      rw [hflow]
      exact ⟨rfl, by simp, by simp⟩
    | true =>
      cases hmr : env.msg.readOK with
      | false =>
        have hflow : MeasureLatency cfg env = (Result.zero, some .readErr) := by
          simp [MeasureLatency, hD, WSStat.WriteMessage, WSStat.ReadMessage, hmw, hmr]
        rw [hflow] at he
        simp only [Option.some.injEq] at he
        subst he
        rw [hflow]
        exact ⟨rfl, by simp, by simp⟩
      | true =>
        have hflow : (MeasureLatency cfg env).2 = none := by
          simp [MeasureLatency, hD, WSStat.WriteMessage, WSStat.ReadMessage, hmw, hmr]
        rw [hflow] at he
        cases he
  · have hnc := dial_error_not_close cfg env.dial NewWSStat e1 (by rw [hD])
    have hflow : MeasureLatency cfg env = (Result.zero, some e1) := by
      simp [MeasureLatency, hD]
    rw [hflow] at he
    simp only [Option.some.injEq] at he
    subst he
    rw [hflow]
    exact ⟨rfl, hnc.1, hnc.2⟩

/-- Any error surfaced by `MeasureLatencyJSON` comes with the zero record and
is never a close error. -/
theorem measureLatencyJSON_error_cases (cfg : PkgConfig) (env : FlowEnv) (e : WSError)
    (he : (MeasureLatencyJSON cfg env).2 = some e) :
    (MeasureLatencyJSON cfg env).1 = Result.zero ∧ e ≠ .closeWriteErr ∧ e ≠ .closeErr := by
  rcases hD : WSStat.Dial cfg env.dial NewWSStat with ⟨ws1, att1, e1⟩
  rcases e1 with _ | e1
  · cases hmw : env.msg.writeOK with
    | false =>
      have hflow : MeasureLatencyJSON cfg env = (Result.zero, some .writeErr) := by
        simp [MeasureLatencyJSON, hD, WSStat.SendMessageJSON, hmw]
      rw [hflow] at he
      simp only [Option.some.injEq] at he
      subst he
      rw [hflow]
      exact ⟨rfl, by simp, by simp⟩
    | true =>
      cases hmr : env.msg.readOK with
      | false =>
        have hflow : MeasureLatencyJSON cfg env = (Result.zero, some .readErr) := by
          simp [MeasureLatencyJSON, hD, WSStat.SendMessageJSON, hmw, hmr]
        rw [hflow] at he
        simp only [Option.some.injEq] at he
        subst he
        rw [hflow]
        exact ⟨rfl, by simp, by simp⟩
      | true =>
        have hflow : (MeasureLatencyJSON cfg env).2 = none := by
          simp [MeasureLatencyJSON, hD, WSStat.SendMessageJSON, hmw, hmr]
        rw [hflow] at he
        cases he
  · have hnc := dial_error_not_close cfg env.dial NewWSStat e1 (by rw [hD])
    have hflow : MeasureLatencyJSON cfg env = (Result.zero, some e1) := by
      simp [MeasureLatencyJSON, hD]
    rw [hflow] at he
    simp only [Option.some.injEq] at he
    subst he
    rw [hflow]
    exact ⟨rfl, hnc.1, hnc.2⟩

/-- Any error surfaced by `MeasureLatencyPing` comes with the zero record and
is never a close error. -/
theorem measureLatencyPing_error_cases (cfg : PkgConfig) (env : FlowEnvPing) (e : WSError)
    (he : (MeasureLatencyPing cfg env).2 = some e) :
    (MeasureLatencyPing cfg env).1 = Result.zero ∧ e ≠ .closeWriteErr ∧ e ≠ .closeErr := by
  rcases hD : WSStat.Dial cfg env.dial NewWSStat with ⟨ws1, att1, e1⟩
  rcases e1 with _ | e1
  · cases hpw : env.ping.pingWriteOK with
    | false =>
      have hflow : MeasureLatencyPing cfg env = (Result.zero, some .writeErr) := by
        simp [MeasureLatencyPing, hD, WSStat.SendPing, hpw]
      rw [hflow] at he
      simp only [Option.some.injEq] at he
      subst he
      rw [hflow]
      exact ⟨rfl, by simp, by simp⟩
    | true =>
      rcases hp : env.ping.pong with _ | d
      · have hflow : MeasureLatencyPing cfg env = (Result.zero, some .pongTimeout) := by
          simp [MeasureLatencyPing, hD, WSStat.SendPing, hpw, hp]
        rw [hflow] at he
        simp only [Option.some.injEq] at he
        subst he
        rw [hflow]
        exact ⟨rfl, by simp, by simp⟩
      · by_cases hlt : d < pongWaitTimeout
        · have hflow : (MeasureLatencyPing cfg env).2 = none := by
            simp [MeasureLatencyPing, hD, WSStat.SendPing, hpw, hp, hlt]
          rw [hflow] at he
          cases he
        · have hflow : MeasureLatencyPing cfg env = (Result.zero, some .pongTimeout) := by
            simp [MeasureLatencyPing, hD, WSStat.SendPing, hpw, hp, hlt]
          rw [hflow] at he
          simp only [Option.some.injEq] at he
          subst he
          rw [hflow]
          exact ⟨rfl, by simp, by simp⟩
  · have hnc := dial_error_not_close cfg env.dial NewWSStat e1 (by rw [hD])
    have hflow : MeasureLatencyPing cfg env = (Result.zero, some e1) := by
      simp [MeasureLatencyPing, hD]
    rw [hflow] at he
    simp only [Option.some.injEq] at he
    subst he
    rw [hflow]
    exact ⟨rfl, hnc.1, hnc.2⟩

/-- Claim C8 counterexample: a canned flow in which every step succeeds
except the close — contrary to the claim, the flow returns with no error and
a populated (non-zero) `Result`: lines 439, 457 and 475 discard `CloseConn`'s
error. -/
theorem claim_C8_counterexample :
    (MeasureLatency defaultConfig
      { dial := { sec := false, lookupHost := some ("127.0.0.1", []), dnsDur := 1,
                  tcpOK := true, tcpDur := 1, tlsOK := false, tlsDur := 0,
                  upgradeOK := true, upgradeDur := 1, lookupIP := some ["127.0.0.1"] },
        msg := { writeOK := true, readOK := true, writeStart := 10, roundTripDur := 2 },
        close := { closeWriteOK := false, closeDur := 0, closeFails := false } }).2
      = none ∧
    (MeasureLatency defaultConfig
      { dial := { sec := false, lookupHost := some ("127.0.0.1", []), dnsDur := 1,
                  tcpOK := true, tcpDur := 1, tlsOK := false, tlsDur := 0,
                  upgradeOK := true, upgradeDur := 1, lookupIP := some ["127.0.0.1"] },
        msg := { writeOK := true, readOK := true, writeStart := 10, roundTripDur := 2 },
        close := { closeWriteOK := false, closeDur := 0, closeFails := false } }).1
      ≠ Result.zero := by
  decide

/-- Claim C8 amended: in every canned flow, a failure of dial, write,
read/exchange or ping returns immediately with a zero `Result` and only that
step's error; `CloseConn` failures, however, are ignored — when the steps
before close succeed the flow returns no error (and the populated record),
so no surfaced error is ever a close error. -/
theorem claim_C8_amended (cfg : PkgConfig) (env : FlowEnv) (envP : FlowEnvPing) :
    (∀ e : WSError, (MeasureLatency cfg env).2 = some e →
      (MeasureLatency cfg env).1 = Result.zero ∧ e ≠ .closeWriteErr ∧ e ≠ .closeErr) ∧
    (∀ e : WSError, (MeasureLatencyJSON cfg env).2 = some e →
      (MeasureLatencyJSON cfg env).1 = Result.zero ∧ e ≠ .closeWriteErr ∧ e ≠ .closeErr) ∧
    (∀ e : WSError, (MeasureLatencyPing cfg envP).2 = some e →
      (MeasureLatencyPing cfg envP).1 = Result.zero ∧ e ≠ .closeWriteErr ∧ e ≠ .closeErr) ∧
    ((WSStat.Dial cfg env.dial NewWSStat).2.2 = none → env.msg.writeOK = true →
      env.msg.readOK = true → (MeasureLatency cfg env).2 = none) ∧
    ((WSStat.Dial cfg env.dial NewWSStat).2.2 = none → env.msg.writeOK = true →
      env.msg.readOK = true → (MeasureLatencyJSON cfg env).2 = none) ∧
    ((WSStat.Dial cfg envP.dial NewWSStat).2.2 = none → envP.ping.pingWriteOK = true →
      (∃ d : Int, envP.ping.pong = some d ∧ d < pongWaitTimeout) →
      (MeasureLatencyPing cfg envP).2 = none) := by
  refine ⟨measureLatency_error_cases cfg env, measureLatencyJSON_error_cases cfg env,
    measureLatencyPing_error_cases cfg envP, ?_, ?_, ?_⟩
  · intro hDn hw hr
    rcases hD : WSStat.Dial cfg env.dial NewWSStat with ⟨ws1, att1, e1⟩
    rw [hD] at hDn
    simp only at hDn
    subst hDn
    simp [MeasureLatency, hD, WSStat.WriteMessage, WSStat.ReadMessage, hw, hr]
  · intro hDn hw hr
    rcases hD : WSStat.Dial cfg env.dial NewWSStat with ⟨ws1, att1, e1⟩
    rw [hD] at hDn
    simp only at hDn
    subst hDn
    simp [MeasureLatencyJSON, hD, WSStat.SendMessageJSON, hw, hr]
  · intro hDn hpw hex
    rcases hex with ⟨d, hp, hlt⟩
    rcases hD : WSStat.Dial cfg envP.dial NewWSStat with ⟨ws1, att1, e1⟩
    rw [hD] at hDn
    simp only at hDn
    subst hDn
    simp [MeasureLatencyPing, hD, WSStat.SendPing, hpw, hp, hlt]

/-- Witness for the amended C8 at a concrete input: with dial and message
exchange succeeding and only the close-frame write failing, `MeasureLatency`
returns no error. -/
theorem claim_C8_witness :
    (MeasureLatency defaultConfig
      { dial := { sec := false, lookupHost := some ("127.0.0.3", []), dnsDur := 1,
                  tcpOK := true, tcpDur := 1, tlsOK := false, tlsDur := 0,
                  upgradeOK := true, upgradeDur := 1, lookupIP := some ["127.0.0.3"] },
        msg := { writeOK := true, readOK := true, writeStart := 0, roundTripDur := 2 },
        close := { closeWriteOK := false, closeDur := 0, closeFails := false } }).2
      = none :=
  (claim_C8_amended defaultConfig
    { dial := { sec := false, lookupHost := some ("127.0.0.3", []), dnsDur := 1,
                tcpOK := true, tcpDur := 1, tlsOK := false, tlsDur := 0,
                upgradeOK := true, upgradeDur := 1, lookupIP := some ["127.0.0.3"] },
      msg := { writeOK := true, readOK := true, writeStart := 0, roundTripDur := 2 },
      close := { closeWriteOK := false, closeDur := 0, closeFails := false } }
    { dial := { sec := false, lookupHost := some ("127.0.0.3", []), dnsDur := 1,
                tcpOK := true, tcpDur := 1, tlsOK := false, tlsDur := 0,
                upgradeOK := true, upgradeDur := 1, lookupIP := some ["127.0.0.3"] },
      ping := { pingWriteOK := true, pong := some 1 },
      close := { closeWriteOK := false, closeDur := 0, closeFails := false } }).2.2.2.1
    (by decide) rfl rfl

/-- Claim C1 counterexample: a fully successful plain-`ws://` session with
DNS, connect and upgrade each taking 1 unit.  The dial records `WSHandshake =
totalDial - TLSHandshakeDone = 3 - 0 = 3` (line 127), so `WSHandshakeDone = 3`
differs from the immediately-preceding marker plus the phase duration,
`TCPConnected + WSHandshake = 2 + 3 = 5`. -/
theorem claim_C1_counterexample :
    (MeasureLatency defaultConfig
      { dial := { sec := false, lookupHost := some ("127.0.0.1", []), dnsDur := 1,
                  tcpOK := true, tcpDur := 1, tlsOK := false, tlsDur := 0,
                  upgradeOK := true, upgradeDur := 1, lookupIP := some ["127.0.0.1"] },
        msg := { writeOK := true, readOK := true, writeStart := 10, roundTripDur := 2 },
        close := { closeWriteOK := true, closeDur := 3, closeFails := false } }).2
      = none ∧
    ¬ ((MeasureLatency defaultConfig
      { dial := { sec := false, lookupHost := some ("127.0.0.1", []), dnsDur := 1,
                  tcpOK := true, tcpDur := 1, tlsOK := false, tlsDur := 0,
                  upgradeOK := true, upgradeDur := 1, lookupIP := some ["127.0.0.1"] },
        msg := { writeOK := true, readOK := true, writeStart := 10, roundTripDur := 2 },
        close := { closeWriteOK := true, closeDur := 3, closeFails := false } }).1.WSHandshakeDone
      = (MeasureLatency defaultConfig
      { dial := { sec := false, lookupHost := some ("127.0.0.1", []), dnsDur := 1,
                  tcpOK := true, tcpDur := 1, tlsOK := false, tlsDur := 0,
                  upgradeOK := true, upgradeDur := 1, lookupIP := some ["127.0.0.1"] },
        msg := { writeOK := true, readOK := true, writeStart := 10, roundTripDur := 2 },
        close := { closeWriteOK := true, closeDur := 3, closeFails := false } }).1.TCPConnected
        + (MeasureLatency defaultConfig
      { dial := { sec := false, lookupHost := some ("127.0.0.1", []), dnsDur := 1,
                  tcpOK := true, tcpDur := 1, tlsOK := false, tlsDur := 0,
                  upgradeOK := true, upgradeDur := 1, lookupIP := some ["127.0.0.1"] },
        msg := { writeOK := true, readOK := true, writeStart := 10, roundTripDur := 2 },
        close := { closeWriteOK := true, closeDur := 3, closeFails := false } }).1.WSHandshake) := by
  decide

/-- Claim C1 amended: in every fully successful session, `TCPConnected =
DNSLookupDone + TCPConnection`, on secure sessions `TLSHandshakeDone =
TCPConnected + TLSHandshake`, `FirstMessageResponse = WSHandshakeDone +
MessageRoundTrip` and `TotalTime = FirstMessageResponse + ConnectionClose`;
but the protocol-handshake link always reads `WSHandshakeDone =
TLSHandshakeDone + WSHandshake` — on plain sessions `TLSHandshakeDone` is
zero, so `WSHandshake` absorbs the whole dial time instead of linking to the
preceding marker `TCPConnected`. -/
theorem claim_C1_amended (cfg : PkgConfig) (env : FlowEnv)
    (a : String) (rest : List String)
    (hhost : env.dial.lookupHost = some (a, rest))
    (htcp : env.dial.tcpOK = true)
    (htls : env.dial.sec = true → env.dial.tlsOK = true)
    (hupg : env.dial.upgradeOK = true)
    (ips : List String) (hip : env.dial.lookupIP = some ips)
    (hw : env.msg.writeOK = true) (hr : env.msg.readOK = true)
    (hcw : env.close.closeWriteOK = true) :
    (MeasureLatency cfg env).2 = none ∧
    (MeasureLatency cfg env).1.TCPConnected
      = (MeasureLatency cfg env).1.DNSLookupDone
        + (MeasureLatency cfg env).1.TCPConnection ∧
    (env.dial.sec = true →
      (MeasureLatency cfg env).1.TLSHandshakeDone
        = (MeasureLatency cfg env).1.TCPConnected
          + (MeasureLatency cfg env).1.TLSHandshake) ∧
    (env.dial.sec = false → (MeasureLatency cfg env).1.TLSHandshakeDone = 0) ∧
    (MeasureLatency cfg env).1.WSHandshakeDone
      = (MeasureLatency cfg env).1.TLSHandshakeDone
        + (MeasureLatency cfg env).1.WSHandshake ∧
    (MeasureLatency cfg env).1.FirstMessageResponse
      = (MeasureLatency cfg env).1.WSHandshakeDone
        + (MeasureLatency cfg env).1.MessageRoundTrip ∧
    (MeasureLatency cfg env).1.TotalTime
      = (MeasureLatency cfg env).1.FirstMessageResponse
        + (MeasureLatency cfg env).1.ConnectionClose := by
  obtain ⟨⟨sec, lh, dd, tok, td, lok, ld, uok, ud, lip⟩, ⟨mw, mr, mws, mrt⟩,
    ⟨cw, cd, cf⟩⟩ := env
  simp only at hhost htcp htls hupg hip hw hr hcw
  subst hhost htcp hupg hip hw hr hcw
  cases sec with
  | false =>
    simp [MeasureLatency, WSStat.Dial, dialerDial, netDialContext, dialElapsed,
      WSStat.WriteMessage, WSStat.ReadMessage, WSStat.CloseConn, NewWSStat]
  | true =>
    have hlok : lok = true := htls rfl
    subst hlok
    simp [MeasureLatency, WSStat.Dial, dialerDial, netDialTLSContext, dialElapsed,
      WSStat.WriteMessage, WSStat.ReadMessage, WSStat.CloseConn, NewWSStat]

/-- Witness for the amended C1 at a concrete input: a successful secure
session with every phase taking 1 unit satisfies the whole marker chain. -/
theorem claim_C1_witness :
    (MeasureLatency defaultConfig
      { dial := { sec := true, lookupHost := some ("10.0.0.1", []), dnsDur := 1,
                  tcpOK := true, tcpDur := 1, tlsOK := true, tlsDur := 1,
                  upgradeOK := true, upgradeDur := 1, lookupIP := some ["10.0.0.1"] },
        msg := { writeOK := true, readOK := true, writeStart := 0, roundTripDur := 1 },
        close := { closeWriteOK := true, closeDur := 1, closeFails := false } }).2
      = none ∧
    (MeasureLatency defaultConfig
      { dial := { sec := true, lookupHost := some ("10.0.0.1", []), dnsDur := 1,
                  tcpOK := true, tcpDur := 1, tlsOK := true, tlsDur := 1,
                  upgradeOK := true, upgradeDur := 1, lookupIP := some ["10.0.0.1"] },
        msg := { writeOK := true, readOK := true, writeStart := 0, roundTripDur := 1 },
        close := { closeWriteOK := true, closeDur := 1, closeFails := false } }).1.TCPConnected
      = (MeasureLatency defaultConfig
      { dial := { sec := true, lookupHost := some ("10.0.0.1", []), dnsDur := 1,
                  tcpOK := true, tcpDur := 1, tlsOK := true, tlsDur := 1,
                  upgradeOK := true, upgradeDur := 1, lookupIP := some ["10.0.0.1"] },
        msg := { writeOK := true, readOK := true, writeStart := 0, roundTripDur := 1 },
        close := { closeWriteOK := true, closeDur := 1, closeFails := false } }).1.DNSLookupDone
        + (MeasureLatency defaultConfig
      { dial := { sec := true, lookupHost := some ("10.0.0.1", []), dnsDur := 1,
                  tcpOK := true, tcpDur := 1, tlsOK := true, tlsDur := 1,
                  upgradeOK := true, upgradeDur := 1, lookupIP := some ["10.0.0.1"] },
        msg := { writeOK := true, readOK := true, writeStart := 0, roundTripDur := 1 },
        close := { closeWriteOK := true, closeDur := 1, closeFails := false } }).1.TCPConnection := by
  have h := claim_C1_amended defaultConfig
    { dial := { sec := true, lookupHost := some ("10.0.0.1", []), dnsDur := 1,
                tcpOK := true, tcpDur := 1, tlsOK := true, tlsDur := 1,
                upgradeOK := true, upgradeDur := 1, lookupIP := some ["10.0.0.1"] },
      msg := { writeOK := true, readOK := true, writeStart := 0, roundTripDur := 1 },
      close := { closeWriteOK := true, closeDur := 1, closeFails := false } }
    "10.0.0.1" [] rfl rfl (fun _ => rfl) rfl ["10.0.0.1"] rfl rfl rfl rfl
  exact ⟨h.1, h.2.1⟩

/-- Claim C4 counterexample: a successful plain-`ws://` dial with DNS and
connect each taking 1 unit and the upgrade 1 unit.  The code computes
`WSHandshake = totalDial - TLSHandshakeDone = 3 - 0 = 3`, not
`totalDial - TCPConnected = 3 - 2 = 1` as the claim states for plain
connections. -/
theorem claim_C4_counterexample :
    (dialOut defaultConfig
      { sec := false, lookupHost := some ("127.0.0.1", []), dnsDur := 1,
        tcpOK := true, tcpDur := 1, tlsOK := false, tlsDur := 0,
        upgradeOK := true, upgradeDur := 1, lookupIP := some ["127.0.0.1"] }).2.2
      = none ∧
    ¬ ((dialOut defaultConfig
      { sec := false, lookupHost := some ("127.0.0.1", []), dnsDur := 1,
        tcpOK := true, tcpDur := 1, tlsOK := false, tlsDur := 0,
        upgradeOK := true, upgradeDur := 1, lookupIP := some ["127.0.0.1"]
      }).1.result.WSHandshake
      = dialElapsed
          { sec := false, lookupHost := some ("127.0.0.1", []), dnsDur := 1,
            tcpOK := true, tcpDur := 1, tlsOK := false, tlsDur := 0,
            upgradeOK := true, upgradeDur := 1, lookupIP := some ["127.0.0.1"] }
        - (dialOut defaultConfig
          { sec := false, lookupHost := some ("127.0.0.1", []), dnsDur := 1,
            tcpOK := true, tcpDur := 1, tlsOK := false, tlsDur := 0,
            upgradeOK := true, upgradeDur := 1, lookupIP := some ["127.0.0.1"]
          }).1.result.TCPConnected) := by
  decide

/-- Claim C4 amended: `WSHandshake` is always derived by the single explicit
subtraction `totalDialTime - TLSHandshakeDone` from already-recorded fields
(equivalently `WSHandshake = WSHandshakeDone - TLSHandshakeDone`), never an
independent timer.  On secure dials `TLSHandshakeDone` is the recorded secure
marker, matching the claim; on plain dials `TLSHandshakeDone` is zero, so
`WSHandshake` equals the entire dial time — not `totalDialTime -
TCPConnected`. -/
theorem claim_C4_amended (cfg : PkgConfig) (env : NetDialEnv)
    (a : String) (rest : List String)
    (hhost : env.lookupHost = some (a, rest))
    (htcp : env.tcpOK = true)
    (htls : env.sec = true → env.tlsOK = true)
    (hupg : env.upgradeOK = true) :
    (dialOut cfg env).1.result.WSHandshake
      = dialElapsed env - (dialOut cfg env).1.result.TLSHandshakeDone ∧
    (dialOut cfg env).1.result.WSHandshake
      = (dialOut cfg env).1.result.WSHandshakeDone
        - (dialOut cfg env).1.result.TLSHandshakeDone ∧
    (env.sec = true →
      (dialOut cfg env).1.result.TLSHandshakeDone
        = (dialOut cfg env).1.result.TCPConnected
          + (dialOut cfg env).1.result.TLSHandshake) ∧
    (env.sec = false →
      (dialOut cfg env).1.result.TLSHandshakeDone = 0 ∧
      (dialOut cfg env).1.result.WSHandshake = dialElapsed env) := by
  obtain ⟨sec, lh, dd, tok, td, lok, ld, uok, ud, lip⟩ := env
  simp only at hhost htcp htls hupg
  subst hhost htcp hupg
  cases sec with
  | false =>
    rcases lip with _ | ips <;>
      simp [dialOut, WSStat.Dial, dialerDial, netDialContext, dialElapsed, NewWSStat]
  | true =>
    have hlok : lok = true := htls rfl
    subst hlok
    rcases lip with _ | ips <;>
      simp [dialOut, WSStat.Dial, dialerDial, netDialTLSContext, dialElapsed, NewWSStat]

/-- Witness for the amended C4 at a concrete input: on a successful secure
dial, the recorded `WSHandshake` equals `totalDial - TLSHandshakeDone`. -/
theorem claim_C4_witness :
    (dialOut defaultConfig
      { sec := true, lookupHost := some ("10.0.0.1", []), dnsDur := 1,
        tcpOK := true, tcpDur := 1, tlsOK := true, tlsDur := 1,
        upgradeOK := true, upgradeDur := 1, lookupIP := some ["10.0.0.1"]
      }).1.result.WSHandshake
      = dialElapsed
          { sec := true, lookupHost := some ("10.0.0.1", []), dnsDur := 1,
            tcpOK := true, tcpDur := 1, tlsOK := true, tlsDur := 1,
            upgradeOK := true, upgradeDur := 1, lookupIP := some ["10.0.0.1"] }
        - (dialOut defaultConfig
          { sec := true, lookupHost := some ("10.0.0.1", []), dnsDur := 1,
            tcpOK := true, tcpDur := 1, tlsOK := true, tlsDur := 1,
            upgradeOK := true, upgradeDur := 1, lookupIP := some ["10.0.0.1"]
          }).1.result.TLSHandshakeDone :=
  (claim_C4_amended defaultConfig
    { sec := true, lookupHost := some ("10.0.0.1", []), dnsDur := 1,
      tcpOK := true, tcpDur := 1, tlsOK := true, tlsDur := 1,
      upgradeOK := true, upgradeDur := 1, lookupIP := some ["10.0.0.1"] }
    "10.0.0.1" [] rfl rfl (fun _ => rfl) rfl).1

/-- Claim C6 counterexample: on a secure dial the transport connect is made
with no timeout bound at all (lines 540-541 use a fresh `net.Dialer` and
ignore the package `dialTimeout`), so the connect is not bounded by the
configured dial timeout as the claim states for the secure path. -/
theorem claim_C6_counterexample :
    (dialOut defaultConfig
      { sec := true, lookupHost := some ("10.0.0.1", ["10.0.0.2"]), dnsDur := 1,
        tcpOK := true, tcpDur := 1, tlsOK := true, tlsDur := 1,
        upgradeOK := true, upgradeDur := 1, lookupIP := some ["10.0.0.1"] }).2.1
      = some { addr := "10.0.0.1", timeout := none } ∧
    (none : Option Int) ≠ some defaultConfig.dialTimeout := by
  decide

/-- Claim C6 amended: on both paths the transport connect targets only the
first resolved address; but only the non-secure path bounds the connect by
the configured dial timeout (default 3 s, settable via `SetDialTimeout`) —
the secure path dials with no timeout bound. -/
theorem claim_C6_amended (cfg : PkgConfig) (env : NetDialEnv)
    (a : String) (rest : List String)
    (hhost : env.lookupHost = some (a, rest)) :
    (env.sec = false →
      (dialOut cfg env).2.1 = some { addr := a, timeout := some cfg.dialTimeout }) ∧
    (env.sec = true →
      (dialOut cfg env).2.1 = some { addr := a, timeout := none }) ∧
    defaultConfig.dialTimeout = 3000000000 ∧
    (∀ t : Int, ∀ c : PkgConfig, (SetDialTimeout t c).dialTimeout = t) := by
  obtain ⟨sec, lh, dd, tok, td, lok, ld, uok, ud, lip⟩ := env
  simp only at hhost
  subst hhost
  refine ⟨?_, ?_, rfl, fun t c => rfl⟩
  · intro hsec
    simp only at hsec
    subst hsec
    cases tok <;> cases uok <;> rcases lip with _ | ips <;>
      simp [dialOut, WSStat.Dial, dialerDial, netDialContext, NewWSStat]
  · intro hsec
    simp only at hsec
    subst hsec
    cases tok <;> cases lok <;> cases uok <;> rcases lip with _ | ips <;>
      simp [dialOut, WSStat.Dial, dialerDial, netDialTLSContext, NewWSStat]

/-- Witness for the amended C6 at a concrete input: a plain dial connects to
the first resolved address bounded by the default 3 s timeout. -/
theorem claim_C6_witness :
    (dialOut defaultConfig
      { sec := false, lookupHost := some ("127.0.0.1", ["127.0.0.2"]), dnsDur := 1,
        tcpOK := true, tcpDur := 1, tlsOK := false, tlsDur := 0,
        upgradeOK := true, upgradeDur := 1, lookupIP := some ["127.0.0.1"] }).2.1
      = some { addr := "127.0.0.1", timeout := some 3000000000 } :=
  (claim_C6_amended defaultConfig
    { sec := false, lookupHost := some ("127.0.0.1", ["127.0.0.2"]), dnsDur := 1,
      tcpOK := true, tcpDur := 1, tlsOK := false, tlsDur := 0,
      upgradeOK := true, upgradeDur := 1, lookupIP := some ["127.0.0.1"] }
    "127.0.0.1" ["127.0.0.2"] rfl).1 rfl

/-- Claim C2 counterexample: after a successful plain dial with no message
exchange (`FirstMessageResponse = 0`), a close taking 5 units leaves
`TotalTime = 5`, not zero: line 106 computes `TotalTime = FirstMessageResponse
+ ConnectionClose = 0 + 5`. -/
theorem claim_C2_counterexample :
    (dialOut defaultConfig
      { sec := false, lookupHost := some ("127.0.0.1", []), dnsDur := 1,
        tcpOK := true, tcpDur := 1, tlsOK := false, tlsDur := 0,
        upgradeOK := true, upgradeDur := 1,
        lookupIP := some ["127.0.0.1"] }).1.result.FirstMessageResponse = 0 ∧
    (WSStat.CloseConn { closeWriteOK := true, closeDur := 5, closeFails := false }
      (dialOut defaultConfig
        { sec := false, lookupHost := some ("127.0.0.1", []), dnsDur := 1,
          tcpOK := true, tcpDur := 1, tlsOK := false, tlsDur := 0,
          upgradeOK := true, upgradeDur := 1,
          lookupIP := some ["127.0.0.1"] }).1).1.result.ConnectionClose = 5 ∧
    (WSStat.CloseConn { closeWriteOK := true, closeDur := 5, closeFails := false }
      (dialOut defaultConfig
        { sec := false, lookupHost := some ("127.0.0.1", []), dnsDur := 1,
          tcpOK := true, tcpDur := 1, tlsOK := false, tlsDur := 0,
          upgradeOK := true, upgradeDur := 1,
          lookupIP := some ["127.0.0.1"] }).1).1.result.TotalTime = 5 := by
  decide

/-- Claim C2 amended: if `FirstMessageResponse` was never set, a `CloseConn`
whose close-frame write succeeds sets `TotalTime = 0 + ConnectionClose =
ConnectionClose`; `TotalTime` therefore stays zero only when the close
duration itself is zero.  (The zero-Total convention exists only in the
display layer, which prints a dash when `ConnectionClose` is zero.) -/
theorem claim_C2_amended (env : CloseEnv) (ws : WSStat)
    (hfmr : ws.result.FirstMessageResponse = 0)
    (hw : env.closeWriteOK = true) :
    (WSStat.CloseConn env ws).1.result.ConnectionClose = env.closeDur ∧
    (WSStat.CloseConn env ws).1.result.TotalTime = env.closeDur := by
  obtain ⟨cw, cd, cf⟩ := env
  simp only at hw
  subst hw
  simp [WSStat.CloseConn, hfmr]

/-- Witness for the amended C2 at a concrete input: closing a fresh session
(no message exchange) in 7 units yields `TotalTime = 7`. -/
theorem claim_C2_witness :
    (WSStat.CloseConn { closeWriteOK := true, closeDur := 7, closeFails := false }
      NewWSStat).1.result.TotalTime = 7 :=
  (claim_C2_amended { closeWriteOK := true, closeDur := 7, closeFails := false }
    NewWSStat rfl rfl).2

/-- Claim C5 counterexample: a `CloseConn` whose close-frame write fails
returns an error with `ConnectionClose` still zero — lines 101-103 return
before the duration is recorded, contradicting the claim that a failing
`CloseConn` always records the close duration. -/
theorem claim_C5_counterexample :
    (WSStat.CloseConn { closeWriteOK := false, closeDur := 9, closeFails := false }
      (dialOut defaultConfig
        { sec := false, lookupHost := some ("127.0.0.1", []), dnsDur := 1,
          tcpOK := true, tcpDur := 1, tlsOK := false, tlsDur := 0,
          upgradeOK := true, upgradeDur := 1,
          lookupIP := some ["127.0.0.1"] }).1).2 = some .closeWriteErr ∧
    (WSStat.CloseConn { closeWriteOK := false, closeDur := 9, closeFails := false }
      (dialOut defaultConfig
        { sec := false, lookupHost := some ("127.0.0.1", []), dnsDur := 1,
          tcpOK := true, tcpDur := 1, tlsOK := false, tlsDur := 0,
          upgradeOK := true, upgradeDur := 1,
          lookupIP := some ["127.0.0.1"] }).1).1.result.ConnectionClose = 0 := by
  decide

/-- Claim C5 amended: if the close-frame write fails, `CloseConn` returns the
error with the record untouched (`ConnectionClose` stays at its previous
value, zero if never set); only when the write succeeds and the subsequent
transport close fails is the error returned with `ConnectionClose` and
`TotalTime` still recorded. -/
theorem claim_C5_amended (env : CloseEnv) (ws : WSStat) :
    (env.closeWriteOK = false →
      WSStat.CloseConn env ws = (ws, some .closeWriteErr)) ∧
    (env.closeWriteOK = true → env.closeFails = true →
      (WSStat.CloseConn env ws).2 = some .closeErr ∧
      (WSStat.CloseConn env ws).1.result.ConnectionClose = env.closeDur ∧
      (WSStat.CloseConn env ws).1.result.TotalTime
        = ws.result.FirstMessageResponse + env.closeDur) := by
  obtain ⟨cw, cd, cf⟩ := env
  constructor
  · intro hw
    simp only at hw
    subst hw
    simp [WSStat.CloseConn]
  · intro hw hf
    simp only at hw hf
    subst hw hf
    simp [WSStat.CloseConn]

/-- Witness for the amended C5 at a concrete input: a failing transport close
after a successful close-frame write still records the duration. -/
theorem claim_C5_witness :
    (WSStat.CloseConn { closeWriteOK := true, closeDur := 4, closeFails := true }
      NewWSStat).2 = some .closeErr ∧
    (WSStat.CloseConn { closeWriteOK := true, closeDur := 4, closeFails := true }
      NewWSStat).1.result.ConnectionClose = 4 :=
  ⟨((claim_C5_amended { closeWriteOK := true, closeDur := 4, closeFails := true }
      NewWSStat).2 rfl rfl).1,
   ((claim_C5_amended { closeWriteOK := true, closeDur := 4, closeFails := true }
      NewWSStat).2 rfl rfl).2.1⟩

/-- Claim C3 counterexample: name resolution succeeds (its duration 1 is
recorded in `DNSLookup`) but the transport connect fails, and `DNSLookupDone`
is left at zero — the cumulative markers are only written in a batch after the
connect succeeds (lines 521-523), so the claim's "DNSLookupDone must still be
set" fails. -/
theorem claim_C3_counterexample :
    (dialOut defaultConfig
      { sec := false, lookupHost := some ("127.0.0.1", []), dnsDur := 1,
        tcpOK := false, tcpDur := 0, tlsOK := false, tlsDur := 0,
        upgradeOK := false, upgradeDur := 0, lookupIP := none }).2.2
      = some .tcpErr ∧
    (dialOut defaultConfig
      { sec := false, lookupHost := some ("127.0.0.1", []), dnsDur := 1,
        tcpOK := false, tcpDur := 0, tlsOK := false, tlsDur := 0,
        upgradeOK := false, upgradeDur := 0, lookupIP := none
      }).1.result.DNSLookup = 1 ∧
    (dialOut defaultConfig
      { sec := false, lookupHost := some ("127.0.0.1", []), dnsDur := 1,
        tcpOK := false, tcpDur := 0, tlsOK := false, tlsDur := 0,
        upgradeOK := false, upgradeDur := 0, lookupIP := none
      }).1.result.DNSLookupDone = 0 := by
  decide

/-- Claim C3 amended: on a dial from a fresh session, phase failure leaves
that phase's marker and all later markers at zero, but the cumulative markers
of the net-dial are written only as a batch after its last sub-step succeeds:
if DNS succeeds and the connect fails, `DNSLookup` is recorded while
`DNSLookupDone` stays zero; on the TLS path a handshake failure leaves all
three cumulative dial markers zero even though `DNSLookup` and
`TCPConnection` were recorded; an upgrade failure leaves `WSHandshake` and
`WSHandshakeDone` zero; and once the upgrade succeeds, `WSHandshakeDone` is
set even when `Dial` subsequently fails its IP lookup, while
`FirstMessageResponse` and `TotalTime` stay zero. -/
theorem claim_C3_amended (cfg : PkgConfig) (env : NetDialEnv) :
    (env.lookupHost = none →
      (dialOut cfg env).1.result = Result.zero ∧
      (dialOut cfg env).2.2 = some .dnsErr) ∧
    (∀ a : String, ∀ rest : List String, env.lookupHost = some (a, rest) →
      env.tcpOK = false →
      (dialOut cfg env).1.result.DNSLookup = env.dnsDur ∧
      (dialOut cfg env).1.result.DNSLookupDone = 0 ∧
      (dialOut cfg env).1.result.TCPConnected = 0 ∧
      (dialOut cfg env).1.result.TLSHandshakeDone = 0 ∧
      (dialOut cfg env).1.result.WSHandshake = 0 ∧
      (dialOut cfg env).1.result.WSHandshakeDone = 0 ∧
      (dialOut cfg env).1.result.FirstMessageResponse = 0 ∧
      (dialOut cfg env).1.result.TotalTime = 0 ∧
      (dialOut cfg env).2.2 = some .tcpErr) ∧
    (∀ a : String, ∀ rest : List String, env.lookupHost = some (a, rest) →
      env.sec = true → env.tcpOK = true → env.tlsOK = false →
      (dialOut cfg env).1.result.DNSLookup = env.dnsDur ∧
      (dialOut cfg env).1.result.TCPConnection = env.tcpDur ∧
      (dialOut cfg env).1.result.DNSLookupDone = 0 ∧
      (dialOut cfg env).1.result.TCPConnected = 0 ∧
      (dialOut cfg env).1.result.TLSHandshakeDone = 0 ∧
      (dialOut cfg env).1.result.WSHandshakeDone = 0 ∧
      (dialOut cfg env).2.2 = some .tlsErr) ∧
    (∀ a : String, ∀ rest : List String, env.lookupHost = some (a, rest) →
      env.tcpOK = true → (env.sec = true → env.tlsOK = true) →
      env.upgradeOK = false →
      (dialOut cfg env).1.result.WSHandshake = 0 ∧
      (dialOut cfg env).1.result.WSHandshakeDone = 0 ∧
      (dialOut cfg env).1.result.TCPConnected = env.dnsDur + env.tcpDur ∧
      (dialOut cfg env).2.2 = some .upgradeErr) ∧
    (∀ a : String, ∀ rest : List String, env.lookupHost = some (a, rest) →
      env.tcpOK = true → (env.sec = true → env.tlsOK = true) →
      env.upgradeOK = true →
      (dialOut cfg env).1.result.WSHandshakeDone = dialElapsed env ∧
      (dialOut cfg env).1.result.FirstMessageResponse = 0 ∧
      (dialOut cfg env).1.result.TotalTime = 0) := by
  obtain ⟨sec, lh, dd, tok, td, lok, ld, uok, ud, lip⟩ := env
  refine ⟨?_, ?_, ?_, ?_, ?_⟩
  · intro h
    simp only at h
    subst h
    cases sec <;>
      simp [dialOut, WSStat.Dial, dialerDial, netDialContext, netDialTLSContext,
        NewWSStat, Result.zero]
  · intro a rest hh htok
    simp only at hh htok
    subst hh htok
    cases sec <;>
      simp [dialOut, WSStat.Dial, dialerDial, netDialContext, netDialTLSContext,
        NewWSStat]
  · intro a rest hh hsec htok hlok
    simp only at hh hsec htok hlok
    subst hh hsec htok hlok
    simp [dialOut, WSStat.Dial, dialerDial, netDialTLSContext, NewWSStat]
  · intro a rest hh htok htls huok
    simp only at hh htok huok
    subst hh htok huok
    cases sec with
    | false =>
      simp [dialOut, WSStat.Dial, dialerDial, netDialContext, NewWSStat]
    | true =>
      have hlok : lok = true := htls rfl
      subst hlok
      simp [dialOut, WSStat.Dial, dialerDial, netDialTLSContext, NewWSStat]
  · intro a rest hh htok htls huok
    simp only at hh htok huok
    subst hh htok huok
    cases sec with
    | false =>
      rcases lip with _ | ips <;>
        simp [dialOut, WSStat.Dial, dialerDial, netDialContext, dialElapsed, NewWSStat]
    | true =>
      have hlok : lok = true := htls rfl
      subst hlok
      rcases lip with _ | ips <;>
        simp [dialOut, WSStat.Dial, dialerDial, netDialTLSContext, dialElapsed, NewWSStat]

/-- Witness for the amended C3 at a concrete input: DNS succeeds, the connect
fails, and the cumulative marker `DNSLookupDone` stays zero while the phase
duration was recorded. -/
theorem claim_C3_witness :
    (dialOut defaultConfig
      { sec := false, lookupHost := some ("127.0.0.2", []), dnsDur := 2,
        tcpOK := false, tcpDur := 0, tlsOK := false, tlsDur := 0,
        upgradeOK := false, upgradeDur := 0, lookupIP := none
      }).1.result.DNSLookup = 2 ∧
    (dialOut defaultConfig
      { sec := false, lookupHost := some ("127.0.0.2", []), dnsDur := 2,
        tcpOK := false, tcpDur := 0, tlsOK := false, tlsDur := 0,
        upgradeOK := false, upgradeDur := 0, lookupIP := none
      }).1.result.DNSLookupDone = 0 := by
  have h := (claim_C3_amended defaultConfig
    { sec := false, lookupHost := some ("127.0.0.2", []), dnsDur := 2,
      tcpOK := false, tcpDur := 0, tlsOK := false, tlsDur := 0,
      upgradeOK := false, upgradeDur := 0, lookupIP := none }).2.1
    "127.0.0.2" [] rfl rfl
  exact ⟨h.1, h.2.1⟩

/-- Claim C10: on a write error, `WriteMessage` returns the zero time value
and the error and leaves the session record unchanged; on success it returns
the timestamp captured immediately before the write and also changes no
record field; only the subsequent `ReadMessage` records the round-trip
durations. -/
theorem claim_C10 (now : Int) (ws : WSStat) :
    WSStat.WriteMessage now false ws = (ws, 0, some .writeErr) ∧
    WSStat.WriteMessage now true ws = (ws, now, none) ∧
    (∀ readDone writeStart : Int,
      (WSStat.ReadMessage true readDone writeStart ws).1.result.MessageRoundTrip
        = readDone - writeStart ∧
      (WSStat.ReadMessage true readDone writeStart ws).1.result.FirstMessageResponse
        = ws.result.WSHandshakeDone + (readDone - writeStart)) := by
  refine ⟨rfl, rfl, fun readDone writeStart => ?_⟩
  simp [WSStat.ReadMessage]

end Wsstat
